import Mathlib

/-!
Shallow embedding of the Retro Video Game Exchange REST API
(FastAPI + SQLAlchemy, directory `Lab1/`), covering the parts the
verified claims are about: the user / game / trade-offer data model,
the route handlers in `app/routes/users.py`, `app/routes/games.py` and
`app/routes/trade_offers.py`, the HATEOAS link builders in
`app/utils.py`, and the HTTP Basic authentication flow in `app/auth.py`.

Conventions of the embedding:
* The SQLAlchemy session is a value of type `DB` (three tables as lists,
  in insertion order; `query(...).first()` is `List.find?`,
  `query(...).filter(...).all()` is `List.filter`, autoincrement primary
  keys are `1 + max existing id`).
* `datetime.utcnow()` is an abstract tick `now : Nat` passed to each
  mutating handler; the `updated_at` column has `onupdate=datetime.utcnow`
  so committing a modified row stamps `updated_at := now`.
* A handler that can raise `HTTPException` returns
  `Except ApiError α × DB`; every `raise` happens before any mutation in
  the source, so the error branches return the incoming `DB` unchanged.
-/

namespace VGX

/-- `TradeOfferStatus` enum from `app/models/trade_offer.py`. -/
inductive TradeOfferStatus where
  | PENDING
  | ACCEPTED
  | REJECTED
  | CANCELLED
deriving DecidableEq, Repr

/-- The `.value` string of each `TradeOfferStatus` member
(`PENDING = "pending"`, ...). -/
def TradeOfferStatus.value : TradeOfferStatus → String
  | .PENDING => "pending"
  | .ACCEPTED => "accepted"
  | .REJECTED => "rejected"
  | .CANCELLED => "cancelled"

/-- Modelled from the spec: `app/models/user.py` is imported by
`app/models/__init__.py` and `app/auth.py` but is absent from the sources;
per spec section 3 a User has a unique `id`, `name`, unique `email`, a
password credential and a `street_address` (the exact columns the routes
in `app/routes/users.py` read and write). -/
structure User where
  id : Nat
  name : String
  email : String
  password : String
  street_address : String
deriving DecidableEq, Repr

/-- `Game` model from `app/models/game.py` (`condition` is a plain
`String` column; the `Condition` enum only constrains request bodies). -/
structure Game where
  id : Nat
  name : String
  publisher : String
  year_published : Int
  system : String
  condition : String
  previous_owners : Option Int
  owner_id : Nat
deriving DecidableEq, Repr

/-- `TradeOffer` model from `app/models/trade_offer.py`. -/
structure TradeOffer where
  id : Nat
  proposer_id : Nat
  recipient_id : Nat
  offered_game_id : Nat
  requested_game_id : Nat
  status : TradeOfferStatus
  created_at : Nat
  updated_at : Nat
  responded_at : Option Nat
  message : Option String
deriving DecidableEq, Repr

/-- The whole SQLite database: the three tables, rows in insertion order. -/
structure DB where
  users : List User
  games : List Game
  offers : List TradeOffer
deriving DecidableEq, Repr

/-- The uniform error body produced by the exception handlers in
`main.py`: `{code, message}` from an `HTTPException(status_code, detail)`. -/
structure ApiError where
  code : Nat
  message : String
deriving DecidableEq, Repr

/-- `Links` pydantic model from `app/schemas/schemas.py` lines 15-20:
exactly the five declared fields `self`, `update`, `delete`, `owner`,
`games` (all but `self` defaulting to `None`).  It has no `respond` or
`cancel` field. -/
structure Links where
  self : String
  update : Option String := none
  delete : Option String := none
  owner : Option String := none
  games : Option String := none
deriving DecidableEq, Repr

/-- `build_user_links` from `app/utils.py`. -/
def build_user_links (user_id : Nat) : Links :=
  { self := "/users/" ++ toString user_id
    update := some ("/users/" ++ toString user_id)
    delete := some ("/users/" ++ toString user_id)
    games := some ("/games?ownerId=" ++ toString user_id) }

/-- `build_game_links` from `app/utils.py`. -/
def build_game_links (game_id : Nat) (owner_id : Nat) : Links :=
  { self := "/games/" ++ toString game_id
    update := some ("/games/" ++ toString game_id)
    delete := some ("/games/" ++ toString game_id)
    owner := some ("/users/" ++ toString owner_id) }

/-- `build_trade_offer_links` from `app/utils.py`.  The Python call is
`Links(self=..., respond=..., cancel=...)`, but the `Links` pydantic model
declares no `respond` or `cancel` field, and pydantic's default
`extra="ignore"` configuration silently drops unknown constructor
keywords, so the constructed value carries only `self` (with `update`,
`delete`, `owner`, `games` at their `None` defaults). -/
def build_trade_offer_links (offer_id : Nat) : Links :=
  { self := "/trade-offers/" ++ toString offer_id }

/-- `db.query(User).filter(User.id == uid).first()`. -/
def findUser (db : DB) (uid : Nat) : Option User :=
  db.users.find? (fun u => u.id == uid)

/-- `db.query(User).filter(User.email == e).first()`. -/
def findUserByEmail (db : DB) (e : String) : Option User :=
  db.users.find? (fun u => u.email == e)

/-- `db.query(Game).filter(Game.id == gid).first()`. -/
def findGame (db : DB) (gid : Nat) : Option Game :=
  db.games.find? (fun g => g.id == gid)

/-- `db.query(TradeOffer).filter(TradeOffer.id == oid).first()`. -/
def findOffer (db : DB) (oid : Nat) : Option TradeOffer :=
  db.offers.find? (fun o => o.id == oid)

/-- Autoincrement primary key for a fresh `users` row. -/
def nextUserId (db : DB) : Nat :=
  (db.users.map User.id).foldr max 0 + 1

/-- Autoincrement primary key for a fresh `games` row. -/
def nextGameId (db : DB) : Nat :=
  (db.games.map Game.id).foldr max 0 + 1

/-- Autoincrement primary key for a fresh `trade_offers` row. -/
def nextOfferId (db : DB) : Nat :=
  (db.offers.map TradeOffer.id).foldr max 0 + 1

/-! ## `app/auth.py` -/

/-- Modelled abstraction of passlib's bcrypt `CryptContext.hash`
(`get_password_hash` in `app/auth.py`): a one-way salted hash is modelled
as an injective tagging of the input; what matters for the claims is that
a hash is distinguishable from the plaintext it hashes and that
verification succeeds exactly on the hash of the supplied password. -/
def get_password_hash (password : String) : String :=
  "$2b$12$" ++ password

/-- `verify_password` from `app/auth.py`: bcrypt verification of a plain
password against a stored hash (`CryptContext.verify` succeeds iff the
stored string is the bcrypt hash of the plain password). -/
def verify_password (plain_password : String) (hashed_password : String) : Bool :=
  hashed_password == get_password_hash plain_password

/-- `get_current_authenticated_user` from `app/auth.py`: resolve HTTP
Basic credentials to a user, else 401. -/
def get_current_authenticated_user (db : DB) (email : String)
    (password : String) : Except ApiError User :=
  match db.users.find? (fun u => u.email == email) with
  | none => .error ⟨401, "Invalid email or password"⟩
  | some u =>
    if verify_password password u.password then .ok u
    else .error ⟨401, "Invalid email or password"⟩

/-! ## `app/routes/users.py` (no authentication dependency on any route) -/

/-- `GET /users`: `get_all_users`. -/
def get_all_users (db : DB) : List (User × Links) :=
  db.users.map (fun u => (u, build_user_links u.id))

/-- `POST /users`: `create_user`.  Note the source stores the supplied
password verbatim (`password=user.password  # TODO: Hash this in
production`) — it does NOT call `get_password_hash`. -/
def create_user (db : DB) (name : String) (email : String)
    (password : String) (street_address : String) :
    Except ApiError (User × Links) × DB :=
  match db.users.find? (fun u => u.email == email) with
  | some _ => (.error ⟨400, "Email already registered"⟩, db)
  | none =>
    let db_user : User :=
      { id := nextUserId db, name := name, email := email
        password := password, street_address := street_address }
    (.ok (db_user, build_user_links db_user.id),
      { db with users := db.users ++ [db_user] })

/-- `GET /users/{user_id}`: `get_user`. -/
def get_user (db : DB) (user_id : Nat) : Except ApiError (User × Links) :=
  match findUser db user_id with
  | none => .error ⟨404, "User not found"⟩
  | some u => .ok (u, build_user_links u.id)

/-- `PUT /users/{user_id}`: `replace_user`.  Also stores the supplied
password verbatim (`db_user.password = user.password  # TODO: Hash in
production`). -/
def replace_user (db : DB) (user_id : Nat) (name : String) (email : String)
    (password : String) (street_address : String) :
    Except ApiError (User × Links) × DB :=
  match findUser db user_id with
  | none => (.error ⟨404, "User not found"⟩, db)
  | some db_user =>
    match db.users.find? (fun u => u.email == email && u.id != user_id) with
    | some _ => (.error ⟨400, "Email already in use by another user"⟩, db)
    | none =>
      let u' : User :=
        { db_user with name := name, email := email
                       password := password, street_address := street_address }
      (.ok (u', build_user_links u'.id),
        { db with users := db.users.map (fun u => if u.id == user_id then u' else u) })

/-- `PATCH /users/{user_id}`: `update_user` (name / street address only). -/
def update_user (db : DB) (user_id : Nat) (name : Option String)
    (street_address : Option String) : Except ApiError (User × Links) × DB :=
  match findUser db user_id with
  | none => (.error ⟨404, "User not found"⟩, db)
  | some db_user =>
    let u' : User :=
      { db_user with
          name := name.getD db_user.name
          street_address := street_address.getD db_user.street_address }
    (.ok (u', build_user_links u'.id),
      { db with users := db.users.map (fun u => if u.id == user_id then u' else u) })

/-- `DELETE /users/{user_id}`: `delete_user`. -/
def delete_user (db : DB) (user_id : Nat) : Except ApiError Unit × DB :=
  match findUser db user_id with
  | none => (.error ⟨404, "User not found"⟩, db)
  | some _ =>
    (.ok (), { db with users := db.users.filter (fun u => u.id != user_id) })

/-! ## `app/routes/games.py` (no authentication dependency on any route) -/

/-- Case-insensitive substring containment over character lists, the
semantics of SQL `col ILIKE '%pat%'` used by `search_games`. -/
def charsContain (pat : List Char) : List Char → Bool
  | [] => pat.isEmpty
  | c :: rest => pat.isPrefixOf (c :: rest) || charsContain pat rest

/-- `Game.name.ilike(f"%{pat}%")` — case-insensitive substring match. -/
def ilike (col : String) (pat : String) : Bool :=
  charsContain pat.toLower.toList col.toLower.toList

/-- `GET /games`: `get_all_games`. -/
def get_all_games (db : DB) : List (Game × Links) :=
  db.games.map (fun g => (g, build_game_links g.id g.owner_id))

/-- `GET /games/search`: `search_games`.  The string filters are guarded
by Python truthiness (`if name:`), so an empty string behaves as absent;
the integer filters are guarded by `is not None`. -/
def search_games (db : DB) (name : Option String) (publisher : Option String)
    (system : Option String) (condition : Option String)
    (owner_id : Option Nat) (year_before : Option Int)
    (year_after : Option Int) : List (Game × Links) :=
  let q0 : List Game := db.games
  let q1 : List Game := match name with
    | some s => if s.isEmpty then q0 else q0.filter (fun g => ilike g.name s)
    | none => q0
  let q2 : List Game := match publisher with
    | some s => if s.isEmpty then q1 else q1.filter (fun g => ilike g.publisher s)
    | none => q1
  let q3 : List Game := match system with
    | some s => if s.isEmpty then q2 else q2.filter (fun g => ilike g.system s)
    | none => q2
  let q4 : List Game := match condition with
    | some s => if s.isEmpty then q3 else q3.filter (fun g => g.condition == s)
    | none => q3
  let q5 : List Game := match owner_id with
    | some v => q4.filter (fun g => g.owner_id == v)
    | none => q4
  let q6 : List Game := match year_before with
    | some v => q5.filter (fun g => g.year_published < v)
    | none => q5
  let q7 : List Game := match year_after with
    | some v => q6.filter (fun g => g.year_published > v)
    | none => q6
  q7.map (fun g => (g, build_game_links g.id g.owner_id))

/-- `POST /games`: `create_game`. -/
def create_game (db : DB) (name : String) (publisher : String)
    (year_published : Int) (system : String) (condition : String)
    (previous_owners : Option Int) (owner_id : Nat) :
    Except ApiError (Game × Links) × DB :=
  match findUser db owner_id with
  | none => (.error ⟨400, "Owner not found"⟩, db)
  | some _ =>
    let db_game : Game :=
      { id := nextGameId db, name := name, publisher := publisher
        year_published := year_published, system := system
        condition := condition, previous_owners := previous_owners
        owner_id := owner_id }
    (.ok (db_game, build_game_links db_game.id db_game.owner_id),
      { db with games := db.games ++ [db_game] })

/-- `GET /games/{game_id}`: `get_game`. -/
def get_game (db : DB) (game_id : Nat) : Except ApiError (Game × Links) :=
  match findGame db game_id with
  | none => .error ⟨404, "Game not found"⟩
  | some g => .ok (g, build_game_links g.id g.owner_id)

/-- `PUT /games/{game_id}`: `replace_game`. -/
def replace_game (db : DB) (game_id : Nat) (name : String)
    (publisher : String) (year_published : Int) (system : String)
    (condition : String) (previous_owners : Option Int) (owner_id : Nat) :
    Except ApiError (Game × Links) × DB :=
  match findGame db game_id with
  | none => (.error ⟨404, "Game not found"⟩, db)
  | some db_game =>
    match findUser db owner_id with
    | none => (.error ⟨400, "Owner not found"⟩, db)
    | some _ =>
      let g' : Game :=
        { db_game with name := name, publisher := publisher
                       year_published := year_published, system := system
                       condition := condition, previous_owners := previous_owners
                       owner_id := owner_id }
      (.ok (g', build_game_links g'.id g'.owner_id),
        { db with games := db.games.map (fun g => if g.id == game_id then g' else g) })

/-- `PATCH /games/{game_id}`: `update_game` (never touches `owner_id`). -/
def update_game (db : DB) (game_id : Nat) (name : Option String)
    (publisher : Option String) (year_published : Option Int)
    (system : Option String) (condition : Option String)
    (previous_owners : Option Int) : Except ApiError (Game × Links) × DB :=
  match findGame db game_id with
  | none => (.error ⟨404, "Game not found"⟩, db)
  | some db_game =>
    let g' : Game :=
      { db_game with
          name := name.getD db_game.name
          publisher := publisher.getD db_game.publisher
          year_published := year_published.getD db_game.year_published
          system := system.getD db_game.system
          condition := condition.getD db_game.condition
          previous_owners :=
            match previous_owners with
            | some v => some v
            | none => db_game.previous_owners }
    (.ok (g', build_game_links g'.id g'.owner_id),
      { db with games := db.games.map (fun g => if g.id == game_id then g' else g) })

/-- `DELETE /games/{game_id}`: `delete_game`. -/
def delete_game (db : DB) (game_id : Nat) : Except ApiError Unit × DB :=
  match findGame db game_id with
  | none => (.error ⟨404, "Game not found"⟩, db)
  | some _ =>
    (.ok (), { db with games := db.games.filter (fun g => g.id != game_id) })

/-! ## `app/routes/trade_offers.py` (every route authenticates; handlers
below receive the already-authenticated caller's id) -/

/-- The `status == TradeOfferStatus.PENDING` duplicate predicate of
`create_trade_offer` (lines 141-147), for a candidate tuple. -/
def isPendingDup (proposer_id recipient_id offered_game_id requested_game_id : Nat)
    (o : TradeOffer) : Bool :=
  o.proposer_id == proposer_id && o.recipient_id == recipient_id &&
  o.offered_game_id == offered_game_id && o.requested_game_id == requested_game_id &&
  o.status == TradeOfferStatus.PENDING

/-- `db.query(Game).filter(Game.owner_id == uid).all()` — the caller's
owned games in store order (line 132). -/
def ownedGames (db : DB) (uid : Nat) : List Game :=
  db.games.filter (fun g => g.owner_id == uid)

/-- Commit of a mutated row: replace the offer with primary key `oid`. -/
def updateOffer (offers : List TradeOffer) (oid : Nat) (o' : TradeOffer) :
    List TradeOffer :=
  offers.map (fun o => if o.id == oid then o' else o)

/-- One `if filter: query = query.filter(col == filter)` step for an
`Optional[int]` query parameter: Python truthiness skips the filter both
when the parameter is absent and when it is `0`. -/
def applyIntFilter (v : Option Nat) (col : TradeOffer → Nat)
    (l : List TradeOffer) : List TradeOffer :=
  match v with
  | none => l
  | some r => if r != 0 then l.filter (fun o => col o == r) else l

/-- `if status_filter: query = query.filter(TradeOffer.status == status_filter)`
— every enum member is truthy, so the filter applies whenever present. -/
def applyStatusFilter (v : Option TradeOfferStatus) (l : List TradeOffer) :
    List TradeOffer :=
  match v with
  | some s => l.filter (fun o => o.status == s)
  | none => l

/-- Insert into a list kept in descending `created_at` order. -/
def insertDesc (o : TradeOffer) : List TradeOffer → List TradeOffer
  | [] => [o]
  | x :: xs =>
    if o.created_at ≤ x.created_at then x :: insertDesc o xs
    else o :: x :: xs

/-- `query.order_by(TradeOffer.created_at.desc()).all()` — sort the
selected rows newest-created-first. -/
def sortByCreatedDesc : List TradeOffer → List TradeOffer
  | [] => []
  | o :: xs => insertDesc o (sortByCreatedDesc xs)

/-- `GET /trade-offers`: `get_trade_offers`. -/
def get_trade_offers (db : DB) (callerId : Nat)
    (status_filter : Option TradeOfferStatus)
    (recipient_id_filter : Option Nat) (proposer_id_filter : Option Nat) :
    List (TradeOffer × Links) :=
  let base := db.offers.filter
    (fun o => o.proposer_id == callerId || o.recipient_id == callerId)
  let q1 : List TradeOffer := applyStatusFilter status_filter base
  let q2 : List TradeOffer := applyIntFilter recipient_id_filter TradeOffer.recipient_id q1
  let q3 : List TradeOffer := applyIntFilter proposer_id_filter TradeOffer.proposer_id q2
  (sortByCreatedDesc q3).map (fun o => (o, build_trade_offer_links o.id))

/-- `GET /trade-offers/{offer_id}`: `get_trade_offer`. -/
def get_trade_offer (db : DB) (callerId : Nat) (offer_id : Nat) :
    Except ApiError (TradeOffer × Links) :=
  match findOffer db offer_id with
  | none => .error ⟨404, "Trade offer not found"⟩
  | some offer =>
    if callerId != offer.proposer_id && callerId != offer.recipient_id then
      .error ⟨403, "You are not authorized to view this trade offer"⟩
    else
      .ok (offer, build_trade_offer_links offer.id)

/-- `POST /trade-offers`: `create_trade_offer` (lines 103-169), with its
six checks in source order. -/
def create_trade_offer (db : DB) (callerId : Nat) (requested_game_id : Nat)
    (recipient_id : Nat) (message : Option String) (now : Nat) :
    Except ApiError (TradeOffer × Links) × DB :=
  match findGame db requested_game_id with
  | none => (.error ⟨404, "Requested game not found"⟩, db)
  | some requested_game =>
    match findUser db recipient_id with
    | none => (.error ⟨404, "Recipient user not found"⟩, db)
    | some _ =>
      if requested_game.owner_id != recipient_id then
        (.error ⟨400, "Requested game is not owned by the specified recipient"⟩, db)
      else if callerId == recipient_id then
        (.error ⟨400, "Cannot create a trade offer for yourself"⟩, db)
      else
        match ownedGames db callerId with
        | [] =>
          (.error ⟨400, "You must own at least one game to create a trade offer"⟩, db)
        | offered_game :: _ =>
          if (db.offers.filter
                (isPendingDup callerId recipient_id offered_game.id
                  requested_game_id)).isEmpty then
            let new_offer : TradeOffer :=
              { id := nextOfferId db
                proposer_id := callerId
                recipient_id := recipient_id
                offered_game_id := offered_game.id
                requested_game_id := requested_game_id
                status := .PENDING
                created_at := now, updated_at := now
                responded_at := none, message := message }
            (.ok (new_offer, build_trade_offer_links new_offer.id),
              { db with offers := db.offers ++ [new_offer] })
          else
            (.error ⟨400, "A pending trade offer for these games already exists"⟩, db)

/-- `PATCH /trade-offers/{offer_id}`: `respond_to_trade_offer`
(lines 172-222), checks in source order: 404, recipient-only 403,
non-PENDING 400 naming the current status, invalid target status 400;
on success stamp `status`, `responded_at` and (via `onupdate`)
`updated_at`. -/
def respond_to_trade_offer (db : DB) (callerId : Nat) (offer_id : Nat)
    (new_status : TradeOfferStatus) (now : Nat) :
    Except ApiError (TradeOffer × Links) × DB :=
  match findOffer db offer_id with
  | none => (.error ⟨404, "Trade offer not found"⟩, db)
  | some offer =>
    if callerId != offer.recipient_id then
      (.error ⟨403, "Only the recipient can respond to this trade offer"⟩, db)
    else if offer.status != TradeOfferStatus.PENDING then
      (.error ⟨400, "Cannot respond to an offer with status: " ++ offer.status.value⟩, db)
    else if new_status != TradeOfferStatus.ACCEPTED &&
            new_status != TradeOfferStatus.REJECTED then
      (.error ⟨400, "Recipients can only accept or reject offers"⟩, db)
    else
      let offer' : TradeOffer :=
        { offer with status := new_status, responded_at := some now
                     updated_at := now }
      (.ok (offer', build_trade_offer_links offer'.id),
        { db with offers := updateOffer db.offers offer_id offer' })

/-- `DELETE /trade-offers/{offer_id}`: `cancel_trade_offer`
(lines 225-261), checks in source order: 404, proposer-only 403,
non-PENDING 400 naming the current status; on success set status to
CANCELLED (`responded_at` untouched, `updated_at` stamped by `onupdate`)
and return no body. -/
def cancel_trade_offer (db : DB) (callerId : Nat) (offer_id : Nat)
    (now : Nat) : Except ApiError Unit × DB :=
  match findOffer db offer_id with
  | none => (.error ⟨404, "Trade offer not found"⟩, db)
  | some offer =>
    if callerId != offer.proposer_id then
      (.error ⟨403, "Only the proposer can cancel this trade offer"⟩, db)
    else if offer.status != TradeOfferStatus.PENDING then
      (.error ⟨400, "Cannot cancel an offer with status: " ++ offer.status.value⟩, db)
    else
      let offer' : TradeOffer :=
        { offer with status := .CANCELLED, updated_at := now }
      (.ok (), { db with offers := updateOffer db.offers offer_id offer' })

/-! ## Derived notions used by the verified properties -/

/-- The HTTP status code of a handler outcome (200-family on success). -/
def codeOf {α : Type} : Except ApiError α → Nat
  | .ok _ => 200
  | .error e => e.code

/-- The identifying `(proposer_id, recipient_id, offered_game_id,
requested_game_id)` tuple of an offer. -/
def offerTuple (o : TradeOffer) : Nat × Nat × Nat × Nat :=
  (o.proposer_id, o.recipient_id, o.offered_game_id, o.requested_game_id)

/-- No two rows of the offer table are simultaneously PENDING with the
same identifying tuple. -/
def NoDupPending (offers : List TradeOffer) : Prop :=
  offers.Pairwise (fun a b =>
    ¬(a.status = TradeOfferStatus.PENDING ∧ b.status = TradeOfferStatus.PENDING ∧
      offerTuple a = offerTuple b))

/-- The at-most-one-PENDING-offer-per-tuple store invariant. -/
def PendingUnique (db : DB) : Prop :=
  NoDupPending db.offers

/-- One request processed against the store: one of the three mutating
trade-offer handlers (with any caller, arguments and clock), or a request
handled by the user/game routes, none of which touches the
`trade_offers` table. -/
inductive Step : DB → DB → Prop where
  | create (db : DB) (c rgid rid : Nat) (m : Option String) (now : Nat) :
      Step db (create_trade_offer db c rgid rid m now).2
  | respond (db : DB) (c oid : Nat) (s : TradeOfferStatus) (now : Nat) :
      Step db (respond_to_trade_offer db c oid s now).2
  | cancel (db : DB) (c oid : Nat) (now : Nat) :
      Step db (cancel_trade_offer db c oid now).2
  | collab (db db' : DB) (h : db'.offers = db.offers) : Step db db'

/-- Stores reachable from a store with no offers (offers are created only
through `create_trade_offer`; users and games may start arbitrary). -/
inductive Reachable : DB → Prop where
  | init (users : List User) (games : List Game) : Reachable ⟨users, games, []⟩
  | step {db db' : DB} : Reachable db → Step db db' → Reachable db'

/-! ## Concrete fixtures (a seeded store in the style of `seed_data.py`) -/

/-- Seeded user 1. -/
def userA : User :=
  { id := 1, name := "Alice", email := "alice@example.com"
    password := get_password_hash "gamer123", street_address := "1 A St" }

/-- Seeded user 2. -/
def userB : User :=
  { id := 2, name := "Bob", email := "bob@example.com"
    password := get_password_hash "trader456", street_address := "2 B St" }

/-- Seeded game 1, owned by user 1. -/
def gameA : Game :=
  { id := 1, name := "Minecraft", publisher := "Mojang", year_published := 2011
    system := "PC", condition := "good", previous_owners := some 2, owner_id := 1 }

/-- Seeded game 2, owned by user 2. -/
def gameB : Game :=
  { id := 2, name := "Among Us", publisher := "InnerSloth", year_published := 2018
    system := "PC", condition := "fair", previous_owners := none, owner_id := 2 }

/-- A PENDING offer: user 1 offers game 1 to user 2 for game 2. -/
def offerP : TradeOffer :=
  { id := 1, proposer_id := 1, recipient_id := 2, offered_game_id := 1
    requested_game_id := 2, status := .PENDING, created_at := 10
    updated_at := 10, responded_at := none, message := none }

/-- The same offer after the recipient accepted it. -/
def offerAcc : TradeOffer :=
  { offerP with status := .ACCEPTED, updated_at := 11, responded_at := some 11 }

/-- Seeded store with no offers. -/
def dbSeed : DB := { users := [userA, userB], games := [gameA, gameB], offers := [] }

/-- Seeded store with the PENDING offer. -/
def dbP : DB := { dbSeed with offers := [offerP] }

/-- Seeded store with the ACCEPTED offer. -/
def dbAcc : DB := { dbSeed with offers := [offerAcc] }

/-! ## Helper lemmas -/

/-- A plaintext password is never a valid bcrypt hash of itself: the hash
carries the scheme tag, so it is strictly longer than its input. -/
lemma verify_password_self_eq_false (pw : String) :
    verify_password pw pw = false := by
  have h7 : ("$2b$12$" : String).length = 7 := rfl
  have hlen : (get_password_hash pw).length = 7 + pw.length := by
    show ("$2b$12$" ++ pw).length = 7 + pw.length
    rw [String.length_append, h7]
  simp only [verify_password, beq_eq_false_iff_ne, ne_eq]
  intro h
  have := congrArg String.length h
  omega

/-- If the row found by email stores the plaintext itself as credential,
HTTP Basic authentication with that very password is rejected with 401. -/
lemma auth_plaintext_fails (db : DB) (e pw : String) (u : User)
    (hu : db.users.find? (fun x => x.email == e) = some u)
    (hpw : u.password = pw) :
    get_current_authenticated_user db e pw =
      .error ⟨401, "Invalid email or password"⟩ := by
  unfold get_current_authenticated_user
  rw [hu]
  dsimp only
  rw [hpw, verify_password_self_eq_false]
  simp

/-- C9: every trade-offer representation returned by the API includes a
links block containing self, respond, and cancel URLs for that offer.
REFUTED AS STATED — the `Links` pydantic model declares no `respond` or
`cancel` field, so the keywords passed by `build_trade_offer_links` are
dropped (pydantic `extra="ignore"`): the links block of every trade-offer
representation carries only the `self` URL, with all remaining declared
fields `None`, contradicting the docstring of `build_trade_offer_links`
itself. -/
theorem trade_offer_links_lack_respond_and_cancel :
    ∀ offer_id : Nat,
      build_trade_offer_links offer_id =
        { self := "/trade-offers/" ++ toString offer_id, update := none
          delete := none, owner := none, games := none } :=
  fun _ => rfl

/-- C8: registration and replace-style update are claimed to store a
salted hash of the supplied password.  REFUTED — `create_user` and
`replace_user` store the supplied plaintext verbatim (`# TODO: Hash this
in production`), while `get_current_authenticated_user` verifies with
bcrypt, so for EVERY password a user registered (or replaced) through the
API stores the plaintext and then cannot authenticate with their own
password. -/
theorem users_routes_store_plaintext_passwords :
    ∀ pw : String,
      (∃ u l,
        (create_user dbSeed "Carol" "carol@example.com" pw "3 C St").1 = .ok (u, l) ∧
        u.password = pw ∧
        get_current_authenticated_user
          (create_user dbSeed "Carol" "carol@example.com" pw "3 C St").2
          "carol@example.com" pw = .error ⟨401, "Invalid email or password"⟩) ∧
      (∃ u l,
        (replace_user dbSeed 1 "Alice" "alice@example.com" pw "1 A St").1 = .ok (u, l) ∧
        u.password = pw ∧
        get_current_authenticated_user
          (replace_user dbSeed 1 "Alice" "alice@example.com" pw "1 A St").2
          "alice@example.com" pw = .error ⟨401, "Invalid email or password"⟩) := by
  intro pw
  constructor
  · refine ⟨_, _, rfl, rfl, ?_⟩
    exact auth_plaintext_fails _ _ _ _ rfl rfl
  · refine ⟨_, _, rfl, rfl, ?_⟩
    exact auth_plaintext_fails _ _ _ _ rfl rfl

/-- C10: no `/users` or `/games` endpoint authenticates or authorizes:
none of the handlers takes a caller identity, every listed user/game is
returned to anyone, a delete succeeds precisely when the referenced id
exists, and every possible outcome code is 200-family, 400 or 404 —
never 401 or 403. -/
theorem users_games_routes_never_authenticate :
    (∀ db, (get_all_users db).map Prod.fst = db.users) ∧
    (∀ db n e p sa, codeOf (create_user db n e p sa).1 = 200 ∨
      codeOf (create_user db n e p sa).1 = 400 ∨
      codeOf (create_user db n e p sa).1 = 404) ∧
    (∀ db uid, codeOf (get_user db uid) = 200 ∨
      codeOf (get_user db uid) = 400 ∨ codeOf (get_user db uid) = 404) ∧
    (∀ db uid n e p sa, codeOf (replace_user db uid n e p sa).1 = 200 ∨
      codeOf (replace_user db uid n e p sa).1 = 400 ∨
      codeOf (replace_user db uid n e p sa).1 = 404) ∧
    (∀ db uid n sa, codeOf (update_user db uid n sa).1 = 200 ∨
      codeOf (update_user db uid n sa).1 = 400 ∨
      codeOf (update_user db uid n sa).1 = 404) ∧
    (∀ db uid, codeOf (delete_user db uid).1 = 200 ∨
      codeOf (delete_user db uid).1 = 400 ∨
      codeOf (delete_user db uid).1 = 404) ∧
    (∀ db uid, (delete_user db uid).1 = .ok () ↔ ∃ u, findUser db uid = some u) ∧
    (∀ db, (get_all_games db).map Prod.fst = db.games) ∧
    (∀ db n p y s cond po oid, codeOf (create_game db n p y s cond po oid).1 = 200 ∨
      codeOf (create_game db n p y s cond po oid).1 = 400 ∨
      codeOf (create_game db n p y s cond po oid).1 = 404) ∧
    (∀ db gid, codeOf (get_game db gid) = 200 ∨
      codeOf (get_game db gid) = 400 ∨ codeOf (get_game db gid) = 404) ∧
    (∀ db gid n p y s cond po oid, codeOf (replace_game db gid n p y s cond po oid).1 = 200 ∨
      codeOf (replace_game db gid n p y s cond po oid).1 = 400 ∨
      codeOf (replace_game db gid n p y s cond po oid).1 = 404) ∧
    (∀ db gid n p y s cond po, codeOf (update_game db gid n p y s cond po).1 = 200 ∨
      codeOf (update_game db gid n p y s cond po).1 = 400 ∨
      codeOf (update_game db gid n p y s cond po).1 = 404) ∧
    (∀ db gid, codeOf (delete_game db gid).1 = 200 ∨
      codeOf (delete_game db gid).1 = 400 ∨
      codeOf (delete_game db gid).1 = 404) ∧
    (∀ db gid, (delete_game db gid).1 = .ok () ↔ ∃ g, findGame db gid = some g) := by
  refine ⟨?_, ?_, ?_, ?_, ?_, ?_, ?_, ?_, ?_, ?_, ?_, ?_, ?_, ?_⟩
  · intro db
    show List.map Prod.fst (db.users.map _) = db.users
    rw [List.map_map]
    have hid : (Prod.fst ∘ fun u : User => (u, build_user_links u.id)) = id := rfl
    rw [hid, List.map_id]
  · intro db n e p sa
    unfold create_user
    cases db.users.find? (fun u => u.email == e) <;> simp [codeOf]
  · intro db uid
    unfold get_user
    cases findUser db uid <;> simp [codeOf]
  · intro db uid n e p sa
    unfold replace_user
    cases findUser db uid with
    | none => simp [codeOf]
    | some u =>
      cases db.users.find? (fun x => x.email == e && x.id != uid) <;> simp [codeOf]
  · intro db uid n sa
    unfold update_user
    cases findUser db uid <;> simp [codeOf]
  · intro db uid
    unfold delete_user
    cases findUser db uid <;> simp [codeOf]
  · intro db uid
    unfold delete_user
    cases h : findUser db uid <;> simp [h]
  · intro db
    show List.map Prod.fst (db.games.map _) = db.games
    rw [List.map_map]
    have hid : (Prod.fst ∘ fun g : Game => (g, build_game_links g.id g.owner_id)) = id := rfl
    rw [hid, List.map_id]
  · intro db n p y s cond po oid
    unfold create_game
    cases findUser db oid <;> simp [codeOf]
  · intro db gid
    unfold get_game
    cases findGame db gid <;> simp [codeOf]
  · intro db gid n p y s cond po oid
    unfold replace_game
    cases findGame db gid with
    | none => simp [codeOf]
    | some g => cases findUser db oid <;> simp [codeOf]
  · intro db gid n p y s cond po
    unfold update_game
    cases findGame db gid <;> simp [codeOf]
  · intro db gid
    unfold delete_game
    cases findGame db gid <;> simp [codeOf]
  · intro db gid
    unfold delete_game
    cases h : findGame db gid <;> simp [h]

/-- C4: for a PENDING offer, a PATCH by any caller other than the
recipient and a DELETE by any caller other than the proposer each fail
with 403 and return the store unchanged. -/
theorem pending_offer_party_authorization
    (db : DB) (c oid : Nat) (s : TradeOfferStatus) (now : Nat) (o : TradeOffer)
    (hf : findOffer db oid = some o) (_hp : o.status = TradeOfferStatus.PENDING) :
    (c ≠ o.recipient_id →
      respond_to_trade_offer db c oid s now =
        (.error ⟨403, "Only the recipient can respond to this trade offer"⟩, db)) ∧
    (c ≠ o.proposer_id →
      cancel_trade_offer db c oid now =
        (.error ⟨403, "Only the proposer can cancel this trade offer"⟩, db)) := by
  constructor
  · intro h
    unfold respond_to_trade_offer
    rw [hf]
    dsimp only
    rw [if_pos (bne_iff_ne.mpr h)]
  · intro h
    unfold cancel_trade_offer
    rw [hf]
    dsimp only
    rw [if_pos (bne_iff_ne.mpr h)]

/-- Witness for C4: on the seeded PENDING offer, the proposer's PATCH and
the recipient's DELETE both come back 403 with the store unchanged. -/
theorem pending_offer_party_authorization_witness :
    respond_to_trade_offer dbP 1 1 TradeOfferStatus.ACCEPTED 20 =
      (.error ⟨403, "Only the recipient can respond to this trade offer"⟩, dbP) ∧
    cancel_trade_offer dbP 2 1 20 =
      (.error ⟨403, "Only the proposer can cancel this trade offer"⟩, dbP) :=
  ⟨(pending_offer_party_authorization dbP 1 1 .ACCEPTED 20 offerP rfl rfl).1 (by decide),
   (pending_offer_party_authorization dbP 2 1 .ACCEPTED 20 offerP rfl rfl).2 (by decide)⟩

/-- C5: a respond succeeds only with target status ACCEPTED or REJECTED;
for a PENDING offer addressed by its recipient, any other target status
(PENDING or CANCELLED) fails with 400 and leaves the store unchanged. -/
theorem respond_requires_accepted_or_rejected :
    (∀ (db : DB) (c oid : Nat) (s : TradeOfferStatus) (now : Nat)
       (res : TradeOffer × Links) (db' : DB),
        respond_to_trade_offer db c oid s now = (.ok res, db') →
        s = TradeOfferStatus.ACCEPTED ∨ s = TradeOfferStatus.REJECTED) ∧
    (∀ (db : DB) (c oid : Nat) (s : TradeOfferStatus) (now : Nat) (o : TradeOffer),
        findOffer db oid = some o → c = o.recipient_id →
        o.status = TradeOfferStatus.PENDING →
        s ≠ TradeOfferStatus.ACCEPTED → s ≠ TradeOfferStatus.REJECTED →
        respond_to_trade_offer db c oid s now =
          (.error ⟨400, "Recipients can only accept or reject offers"⟩, db)) := by
  constructor
  · intro db c oid s now res db' h
    unfold respond_to_trade_offer at h
    cases hf : findOffer db oid with
    | none => rw [hf] at h; simp at h
    | some o =>
      rw [hf] at h
      dsimp only at h
      by_cases h1 : (c != o.recipient_id) = true
      · rw [if_pos h1] at h; simp at h
      · rw [if_neg h1] at h
        by_cases h2 : (o.status != TradeOfferStatus.PENDING) = true
        · rw [if_pos h2] at h; simp at h
        · rw [if_neg h2] at h
          by_cases h3 : (s != TradeOfferStatus.ACCEPTED &&
              s != TradeOfferStatus.REJECTED) = true
          · rw [if_pos h3] at h; simp at h
          · cases s <;> simp_all
  · intro db c oid s now o hf hrec hp hA hR
    unfold respond_to_trade_offer
    rw [hf]
    dsimp only
    have hb : ¬((c != o.recipient_id) = true) := by simp [hrec]
    rw [if_neg hb]
    have hs : ¬((o.status != TradeOfferStatus.PENDING) = true) := by simp [hp]
    rw [if_neg hs]
    have hg : (s != TradeOfferStatus.ACCEPTED &&
        s != TradeOfferStatus.REJECTED) = true := by
      simp [Bool.and_eq_true, bne_iff_ne, hA, hR]
    rw [if_pos hg]

/-- Witness for C5: the recipient of the seeded PENDING offer asks for
target status CANCELLED and is rejected with 400. -/
theorem respond_requires_accepted_or_rejected_witness :
    respond_to_trade_offer dbP 2 1 TradeOfferStatus.CANCELLED 20 =
      (.error ⟨400, "Recipients can only accept or reject offers"⟩, dbP) :=
  respond_requires_accepted_or_rejected.2 dbP 2 1 .CANCELLED 20 offerP rfl rfl rfl
    (by decide) (by decide)

/-- Counterexample for C1: on an ACCEPTED (terminal) offer a PATCH by the
proposer (caller 1, who is not the recipient) fails with 403 — not with a
400 error naming the current status, as the claim states for ANY
PATCH/DELETE on a terminal offer: the recipient check precedes the status
check in `respond_to_trade_offer`. -/
theorem terminal_offer_patch_can_return_403 :
    offerAcc.status = TradeOfferStatus.ACCEPTED ∧
    findOffer dbAcc 1 = some offerAcc ∧
    respond_to_trade_offer dbAcc 1 1 TradeOfferStatus.REJECTED 20 =
      (.error ⟨403, "Only the recipient can respond to this trade offer"⟩, dbAcc) :=
  ⟨rfl, rfl, rfl⟩

/-- C1 (amended): for an offer in a terminal (non-PENDING) status no
transition succeeds and the store is returned unchanged; a PATCH by the
recipient and a DELETE by the proposer fail with a 400 error naming the
current status, while a PATCH by a non-recipient / DELETE by a
non-proposer fail earlier with 403. -/
theorem terminal_offer_immutable
    (db : DB) (c oid : Nat) (s : TradeOfferStatus) (now : Nat) (o : TradeOffer)
    (hf : findOffer db oid = some o) (hterm : o.status ≠ TradeOfferStatus.PENDING) :
    ((respond_to_trade_offer db c oid s now).2 = db ∧
     (c = o.recipient_id →
        (respond_to_trade_offer db c oid s now).1 =
          .error ⟨400, "Cannot respond to an offer with status: " ++ o.status.value⟩) ∧
     (c ≠ o.recipient_id →
        (respond_to_trade_offer db c oid s now).1 =
          .error ⟨403, "Only the recipient can respond to this trade offer"⟩)) ∧
    ((cancel_trade_offer db c oid now).2 = db ∧
     (c = o.proposer_id →
        (cancel_trade_offer db c oid now).1 =
          .error ⟨400, "Cannot cancel an offer with status: " ++ o.status.value⟩) ∧
     (c ≠ o.proposer_id →
        (cancel_trade_offer db c oid now).1 =
          .error ⟨403, "Only the proposer can cancel this trade offer"⟩)) := by
  have h2 : (o.status != TradeOfferStatus.PENDING) = true := bne_iff_ne.mpr hterm
  constructor
  · by_cases h1 : c = o.recipient_id
    · have hb : ¬((c != o.recipient_id) = true) := by simp [h1]
      have hval : respond_to_trade_offer db c oid s now =
          (.error ⟨400, "Cannot respond to an offer with status: " ++ o.status.value⟩, db) := by
        unfold respond_to_trade_offer
        rw [hf]
        dsimp only
        rw [if_neg hb, if_pos h2]
      exact ⟨by rw [hval], fun _ => by rw [hval], fun hc => absurd h1 hc⟩
    · have hb : (c != o.recipient_id) = true := bne_iff_ne.mpr h1
      have hval : respond_to_trade_offer db c oid s now =
          (.error ⟨403, "Only the recipient can respond to this trade offer"⟩, db) := by
        unfold respond_to_trade_offer
        rw [hf]
        dsimp only
        rw [if_pos hb]
      exact ⟨by rw [hval], fun hc => absurd hc h1, fun _ => by rw [hval]⟩
  · by_cases h1 : c = o.proposer_id
    · have hb : ¬((c != o.proposer_id) = true) := by simp [h1]
      have hval : cancel_trade_offer db c oid now =
          (.error ⟨400, "Cannot cancel an offer with status: " ++ o.status.value⟩, db) := by
        unfold cancel_trade_offer
        rw [hf]
        dsimp only
        rw [if_neg hb, if_pos h2]
      exact ⟨by rw [hval], fun _ => by rw [hval], fun hc => absurd h1 hc⟩
    · have hb : (c != o.proposer_id) = true := bne_iff_ne.mpr h1
      have hval : cancel_trade_offer db c oid now =
          (.error ⟨403, "Only the proposer can cancel this trade offer"⟩, db) := by
        unfold cancel_trade_offer
        rw [hf]
        dsimp only
        rw [if_pos hb]
      exact ⟨by rw [hval], fun hc => absurd hc h1, fun _ => by rw [hval]⟩

/-- Witness for the amended C1: on the seeded ACCEPTED offer, the
recipient's PATCH and the proposer's DELETE both fail with a 400 naming
the status "accepted", and the store is unchanged. -/
theorem terminal_offer_immutable_witness :
    (respond_to_trade_offer dbAcc 2 1 TradeOfferStatus.REJECTED 20).1 =
      .error ⟨400, "Cannot respond to an offer with status: accepted"⟩ ∧
    (cancel_trade_offer dbAcc 1 1 20).1 =
      .error ⟨400, "Cannot cancel an offer with status: accepted"⟩ ∧
    (respond_to_trade_offer dbAcc 2 1 TradeOfferStatus.REJECTED 20).2 = dbAcc :=
  ⟨(terminal_offer_immutable dbAcc 2 1 .REJECTED 20 offerAcc rfl (by decide)).1.2.1 rfl,
   (terminal_offer_immutable dbAcc 1 1 .REJECTED 20 offerAcc rfl (by decide)).2.2.1 rfl,
   (terminal_offer_immutable dbAcc 2 1 .REJECTED 20 offerAcc rfl (by decide)).1.1⟩

/-- C6: a successful respond rewrites only the target offer's `status`,
`responded_at` and `updated_at`; a successful cancel rewrites only its
`status` (to CANCELLED) and `updated_at`, leaving `responded_at` as it
was; both leave every user, every game (hence every `owner_id` — no
ownership transfer on acceptance) and every other offer untouched. -/
theorem respond_cancel_change_only_target_offer :
    (∀ (db : DB) (c oid : Nat) (s : TradeOfferStatus) (now : Nat)
       (o : TradeOffer) (l : Links) (db' : DB),
        respond_to_trade_offer db c oid s now = (.ok (o, l), db') →
        ∃ old, findOffer db oid = some old ∧
          o = { old with status := s, responded_at := some now, updated_at := now } ∧
          db'.users = db.users ∧ db'.games = db.games ∧
          db'.offers = updateOffer db.offers oid o ∧
          ∀ x ∈ db.offers, x.id ≠ oid → x ∈ db'.offers) ∧
    (∀ (db : DB) (c oid now : Nat) (db' : DB),
        cancel_trade_offer db c oid now = (.ok (), db') →
        ∃ old, findOffer db oid = some old ∧
          ({ old with status := TradeOfferStatus.CANCELLED, updated_at := now }
            : TradeOffer).responded_at = old.responded_at ∧
          db'.users = db.users ∧ db'.games = db.games ∧
          db'.offers = updateOffer db.offers oid
            { old with status := TradeOfferStatus.CANCELLED, updated_at := now } ∧
          ∀ x ∈ db.offers, x.id ≠ oid → x ∈ db'.offers) := by
  constructor
  · intro db c oid s now o l db' h
    unfold respond_to_trade_offer at h
    cases hf : findOffer db oid with
    | none => rw [hf] at h; simp at h
    | some old =>
      rw [hf] at h
      dsimp only at h
      by_cases h1 : (c != old.recipient_id) = true
      · rw [if_pos h1] at h; simp at h
      · rw [if_neg h1] at h
        by_cases hst : (old.status != TradeOfferStatus.PENDING) = true
        · rw [if_pos hst] at h; simp at h
        · rw [if_neg hst] at h
          by_cases h3 : (s != TradeOfferStatus.ACCEPTED &&
              s != TradeOfferStatus.REJECTED) = true
          · rw [if_pos h3] at h; simp at h
          · rw [if_neg h3] at h
            simp only [Prod.mk.injEq, Except.ok.injEq] at h
            obtain ⟨⟨ho, -⟩, hdb⟩ := h
            refine ⟨old, rfl, ho.symm ▸ rfl, ?_, ?_, ?_, ?_⟩
            · rw [← hdb]
            · rw [← hdb]
            · rw [← hdb, ← ho]
            · intro x hx hne
              rw [← hdb]
              dsimp only [updateOffer]
              refine List.mem_map.mpr ⟨x, hx, ?_⟩
              simp [hne]
  · intro db c oid now db' h
    unfold cancel_trade_offer at h
    cases hf : findOffer db oid with
    | none => rw [hf] at h; simp at h
    | some old =>
      rw [hf] at h
      dsimp only at h
      by_cases h1 : (c != old.proposer_id) = true
      · rw [if_pos h1] at h; simp at h
      · rw [if_neg h1] at h
        by_cases hst : (old.status != TradeOfferStatus.PENDING) = true
        · rw [if_pos hst] at h; simp at h
        · rw [if_neg hst] at h
          simp only [Prod.mk.injEq] at h
          obtain ⟨-, hdb⟩ := h
          refine ⟨old, rfl, rfl, ?_, ?_, ?_, ?_⟩
          · rw [← hdb]
          · rw [← hdb]
          · rw [← hdb]
          · intro x hx hne
            rw [← hdb]
            dsimp only [updateOffer]
            refine List.mem_map.mpr ⟨x, hx, ?_⟩
            simp [hne]

/-- Witness for C6: accepting the seeded PENDING offer succeeds and
rewrites only that offer (users and games equal, offer fields stamped);
likewise its cancellation. -/
theorem respond_cancel_change_only_target_offer_witness :
    (∃ old, findOffer dbP 1 = some old ∧
      ({ offerP with status := TradeOfferStatus.ACCEPTED, responded_at := some 20, updated_at := 20 } : TradeOffer) =
        { old with status := TradeOfferStatus.ACCEPTED, responded_at := some 20, updated_at := 20 } ∧
      (respond_to_trade_offer dbP 2 1 TradeOfferStatus.ACCEPTED 20).2.users = dbP.users ∧
      (respond_to_trade_offer dbP 2 1 TradeOfferStatus.ACCEPTED 20).2.games = dbP.games ∧
      (respond_to_trade_offer dbP 2 1 TradeOfferStatus.ACCEPTED 20).2.offers =
        updateOffer dbP.offers 1
          { offerP with status := TradeOfferStatus.ACCEPTED, responded_at := some 20, updated_at := 20 } ∧
      ∀ x ∈ dbP.offers, x.id ≠ 1 →
        x ∈ (respond_to_trade_offer dbP 2 1 TradeOfferStatus.ACCEPTED 20).2.offers) ∧
    (∃ old, findOffer dbP 1 = some old ∧
      ({ old with status := TradeOfferStatus.CANCELLED, updated_at := 20 }
        : TradeOffer).responded_at = old.responded_at ∧
      (cancel_trade_offer dbP 1 1 20).2.users = dbP.users ∧
      (cancel_trade_offer dbP 1 1 20).2.games = dbP.games ∧
      (cancel_trade_offer dbP 1 1 20).2.offers =
        updateOffer dbP.offers 1
          { old with status := TradeOfferStatus.CANCELLED, updated_at := 20 } ∧
      ∀ x ∈ dbP.offers, x.id ≠ 1 → x ∈ (cancel_trade_offer dbP 1 1 20).2.offers) := by
  constructor
  · obtain ⟨old, hf, ho, hu, hg, hof, hother⟩ :=
      respond_cancel_change_only_target_offer.1 dbP 2 1 TradeOfferStatus.ACCEPTED 20
        { offerP with status := TradeOfferStatus.ACCEPTED, responded_at := some 20, updated_at := 20 }
        (build_trade_offer_links 1) (respond_to_trade_offer dbP 2 1 .ACCEPTED 20).2 rfl
    exact ⟨old, hf, ho, hu, hg, hof, hother⟩
  · obtain ⟨old, hf, hr, hu, hg, hof, hother⟩ :=
      respond_cancel_change_only_target_offer.2 dbP 1 1 20
        (cancel_trade_offer dbP 1 1 20).2 rfl
    exact ⟨old, hf, hr, hu, hg, hof, hother⟩

/-- Full case characterization of `create_trade_offer`: the six checks in
source order, each firing only when all earlier checks passed, plus the
success case. -/
lemma create_trade_offer_cases (db : DB) (c rgid rid : Nat)
    (m : Option String) (now : Nat) :
    (findGame db rgid = none →
      create_trade_offer db c rgid rid m now =
        (.error ⟨404, "Requested game not found"⟩, db)) ∧
    (∀ g, findGame db rgid = some g → findUser db rid = none →
      create_trade_offer db c rgid rid m now =
        (.error ⟨404, "Recipient user not found"⟩, db)) ∧
    (∀ g u, findGame db rgid = some g → findUser db rid = some u →
      g.owner_id ≠ rid →
      create_trade_offer db c rgid rid m now =
        (.error ⟨400, "Requested game is not owned by the specified recipient"⟩, db)) ∧
    (∀ g u, findGame db rgid = some g → findUser db rid = some u →
      g.owner_id = rid → c = rid →
      create_trade_offer db c rgid rid m now =
        (.error ⟨400, "Cannot create a trade offer for yourself"⟩, db)) ∧
    (∀ g u, findGame db rgid = some g → findUser db rid = some u →
      g.owner_id = rid → c ≠ rid → ownedGames db c = [] →
      create_trade_offer db c rgid rid m now =
        (.error ⟨400, "You must own at least one game to create a trade offer"⟩, db)) ∧
    (∀ g u g0 gs, findGame db rgid = some g → findUser db rid = some u →
      g.owner_id = rid → c ≠ rid → ownedGames db c = g0 :: gs →
      (db.offers.filter (isPendingDup c rid g0.id rgid)).isEmpty = false →
      create_trade_offer db c rgid rid m now =
        (.error ⟨400, "A pending trade offer for these games already exists"⟩, db)) ∧
    (∀ g u g0 gs, findGame db rgid = some g → findUser db rid = some u →
      g.owner_id = rid → c ≠ rid → ownedGames db c = g0 :: gs →
      (db.offers.filter (isPendingDup c rid g0.id rgid)).isEmpty = true →
      ∃ o, create_trade_offer db c rgid rid m now =
          (.ok (o, build_trade_offer_links o.id),
            { db with offers := db.offers ++ [o] }) ∧
        o.proposer_id = c ∧ o.recipient_id = rid ∧ o.offered_game_id = g0.id ∧
        o.requested_game_id = rgid ∧ o.status = TradeOfferStatus.PENDING ∧
        o.responded_at = none ∧ o.created_at = now ∧ o.message = m) := by
  refine ⟨?_, ?_, ?_, ?_, ?_, ?_, ?_⟩
  · intro h
    unfold create_trade_offer
    rw [h]
  · intro g hg hu
    unfold create_trade_offer
    rw [hg]
    dsimp only
    rw [hu]
  · intro g u hg hu hne
    unfold create_trade_offer
    rw [hg]
    dsimp only
    rw [hu]
    dsimp only
    rw [if_pos (bne_iff_ne.mpr hne)]
  · intro g u hg hu howner hc
    unfold create_trade_offer
    rw [hg]
    dsimp only
    rw [hu]
    dsimp only
    rw [if_neg (by simp [howner]), if_pos (by simp [hc])]
  · intro g u hg hu howner hc hog
    unfold create_trade_offer
    rw [hg]
    dsimp only
    rw [hu]
    dsimp only
    rw [if_neg (by simp [howner]), if_neg (by simp [hc]), hog]
  · intro g u g0 gs hg hu howner hc hog hdup
    unfold create_trade_offer
    rw [hg]
    dsimp only
    rw [hu]
    dsimp only
    rw [if_neg (by simp [howner]), if_neg (by simp [hc]), hog]
    dsimp only
    rw [if_neg (by simp [hdup])]
  · intro g u g0 gs hg hu howner hc hog hdup
    unfold create_trade_offer
    rw [hg]
    dsimp only
    rw [hu]
    dsimp only
    rw [if_neg (by simp [howner]), if_neg (by simp [hc]), hog]
    dsimp only
    rw [if_pos hdup]
    exact ⟨_, rfl, rfl, rfl, rfl, rfl, rfl, rfl, rfl, rfl⟩

/-- C2: `create_trade_offer` runs its six validations in exactly the
source order, each failing fast with its own distinct error (404, 404,
400, 400, 400, 400), and on success persists and returns a new PENDING
offer with `responded_at` null, whose offered game is the caller's
first-owned game. -/
theorem create_trade_offer_validation_order (db : DB) (c rgid rid : Nat)
    (m : Option String) (now : Nat) :
    (findGame db rgid = none →
      create_trade_offer db c rgid rid m now =
        (.error ⟨404, "Requested game not found"⟩, db)) ∧
    (∀ g, findGame db rgid = some g → findUser db rid = none →
      create_trade_offer db c rgid rid m now =
        (.error ⟨404, "Recipient user not found"⟩, db)) ∧
    (∀ g u, findGame db rgid = some g → findUser db rid = some u →
      g.owner_id ≠ rid →
      create_trade_offer db c rgid rid m now =
        (.error ⟨400, "Requested game is not owned by the specified recipient"⟩, db)) ∧
    (∀ g u, findGame db rgid = some g → findUser db rid = some u →
      g.owner_id = rid → c = rid →
      create_trade_offer db c rgid rid m now =
        (.error ⟨400, "Cannot create a trade offer for yourself"⟩, db)) ∧
    (∀ g u, findGame db rgid = some g → findUser db rid = some u →
      g.owner_id = rid → c ≠ rid → ownedGames db c = [] →
      create_trade_offer db c rgid rid m now =
        (.error ⟨400, "You must own at least one game to create a trade offer"⟩, db)) ∧
    (∀ g u g0 gs, findGame db rgid = some g → findUser db rid = some u →
      g.owner_id = rid → c ≠ rid → ownedGames db c = g0 :: gs →
      (db.offers.filter (isPendingDup c rid g0.id rgid)).isEmpty = false →
      create_trade_offer db c rgid rid m now =
        (.error ⟨400, "A pending trade offer for these games already exists"⟩, db)) ∧
    (∀ g u g0 gs, findGame db rgid = some g → findUser db rid = some u →
      g.owner_id = rid → c ≠ rid → ownedGames db c = g0 :: gs →
      (db.offers.filter (isPendingDup c rid g0.id rgid)).isEmpty = true →
      ∃ o, create_trade_offer db c rgid rid m now =
          (.ok (o, build_trade_offer_links o.id),
            { db with offers := db.offers ++ [o] }) ∧
        o.proposer_id = c ∧ o.recipient_id = rid ∧ o.offered_game_id = g0.id ∧
        o.requested_game_id = rgid ∧ o.status = TradeOfferStatus.PENDING ∧
        o.responded_at = none ∧ o.created_at = now ∧ o.message = m) :=
  create_trade_offer_cases db c rgid rid m now

/-- Witness for C2: on the seeded store user 1 successfully creates an
offer for user 2's game; the created offer is PENDING, unanswered, and
offers user 1's first-owned game (game 1). -/
theorem create_trade_offer_validation_order_witness :
    ∃ o, create_trade_offer dbSeed 1 2 2 none 5 =
        (.ok (o, build_trade_offer_links o.id),
          { dbSeed with offers := dbSeed.offers ++ [o] }) ∧
      o.proposer_id = 1 ∧ o.recipient_id = 2 ∧ o.offered_game_id = 1 ∧
      o.requested_game_id = 2 ∧ o.status = TradeOfferStatus.PENDING ∧
      o.responded_at = none ∧ o.created_at = 5 ∧ o.message = none := by
  obtain ⟨o, h1, h2, h3, h4, h5, h6, h7, h8, h9⟩ :=
    (create_trade_offer_validation_order dbSeed 1 2 2 none 5).2.2.2.2.2.2
      gameB userB gameA [] rfl rfl rfl (by decide) rfl rfl
  exact ⟨o, h1, h2, h3, h4, h5, h6, h7, h8, h9⟩

/-- Shape of the store after `create_trade_offer`: unchanged, or one new
PENDING offer appended whose tuple had no PENDING duplicate. -/
lemma create_snd_offers (db : DB) (c rgid rid : Nat) (m : Option String)
    (now : Nat) :
    (create_trade_offer db c rgid rid m now).2 = db ∨
    ∃ o, o.status = TradeOfferStatus.PENDING ∧
      (db.offers.filter (isPendingDup o.proposer_id o.recipient_id
        o.offered_game_id o.requested_game_id)).isEmpty = true ∧
      (create_trade_offer db c rgid rid m now).2.offers = db.offers ++ [o] := by
  unfold create_trade_offer
  cases hg : findGame db rgid with
  | none => exact Or.inl rfl
  | some g =>
    dsimp only
    cases hu : findUser db rid with
    | none => exact Or.inl rfl
    | some u =>
      dsimp only
      by_cases h1 : (g.owner_id != rid) = true
      · rw [if_pos h1]; exact Or.inl rfl
      · rw [if_neg h1]
        by_cases h2 : (c == rid) = true
        · rw [if_pos h2]; exact Or.inl rfl
        · rw [if_neg h2]
          cases hog : ownedGames db c with
          | nil => exact Or.inl rfl
          | cons g0 gs =>
            dsimp only
            by_cases h3 : (db.offers.filter (isPendingDup c rid g0.id rgid)).isEmpty = true
            · rw [if_pos h3]
              exact Or.inr ⟨_, rfl, h3, rfl⟩
            · rw [if_neg h3]; exact Or.inl rfl

/-- Shape of the store after `respond_to_trade_offer`: unchanged, or one
row rewritten to a non-PENDING status. -/
lemma respond_snd_offers (db : DB) (c oid : Nat) (s : TradeOfferStatus)
    (now : Nat) :
    (respond_to_trade_offer db c oid s now).2 = db ∨
    ∃ o', o'.status ≠ TradeOfferStatus.PENDING ∧
      (respond_to_trade_offer db c oid s now).2.offers =
        db.offers.map (fun x => if x.id == oid then o' else x) := by
  unfold respond_to_trade_offer
  cases hf : findOffer db oid with
  | none => exact Or.inl rfl
  | some o =>
    dsimp only
    by_cases h1 : (c != o.recipient_id) = true
    · rw [if_pos h1]; exact Or.inl rfl
    · rw [if_neg h1]
      by_cases h2 : (o.status != TradeOfferStatus.PENDING) = true
      · rw [if_pos h2]; exact Or.inl rfl
      · rw [if_neg h2]
        by_cases h3 : (s != TradeOfferStatus.ACCEPTED &&
            s != TradeOfferStatus.REJECTED) = true
        · rw [if_pos h3]; exact Or.inl rfl
        · rw [if_neg h3]
          refine Or.inr ⟨_, ?_, rfl⟩
          show s ≠ TradeOfferStatus.PENDING
          cases s <;> simp_all

/-- Shape of the store after `cancel_trade_offer`: unchanged, or one row
rewritten to CANCELLED. -/
lemma cancel_snd_offers (db : DB) (c oid now : Nat) :
    (cancel_trade_offer db c oid now).2 = db ∨
    ∃ o', o'.status ≠ TradeOfferStatus.PENDING ∧
      (cancel_trade_offer db c oid now).2.offers =
        db.offers.map (fun x => if x.id == oid then o' else x) := by
  unfold cancel_trade_offer
  cases hf : findOffer db oid with
  | none => exact Or.inl rfl
  | some o =>
    dsimp only
    by_cases h1 : (c != o.proposer_id) = true
    · rw [if_pos h1]; exact Or.inl rfl
    · rw [if_neg h1]
      by_cases h2 : (o.status != TradeOfferStatus.PENDING) = true
      · rw [if_pos h2]; exact Or.inl rfl
      · rw [if_neg h2]
        exact Or.inr ⟨_, by simp, rfl⟩

/-- Rewriting rows to non-PENDING statuses (or leaving them alone)
preserves the no-duplicate-PENDING property. -/
lemma noDupPending_map_pres {l : List TradeOffer} {f : TradeOffer → TradeOffer}
    (hf : ∀ x, f x = x ∨ (f x).status ≠ TradeOfferStatus.PENDING)
    (hd : NoDupPending l) : NoDupPending (l.map f) := by
  refine List.Pairwise.map f ?_ hd
  intro a b hab
  rintro ⟨hpa, hpb, ht⟩
  rcases hf a with h1 | h1
  · rcases hf b with h2 | h2
    · exact hab ⟨by rw [← h1]; exact hpa, by rw [← h2]; exact hpb,
        by rw [← h1, ← h2]; exact ht⟩
    · exact h2 hpb
  · exact h1 hpa

/-- Appending a PENDING offer whose tuple has no PENDING duplicate in the
table preserves the no-duplicate-PENDING property. -/
lemma noDupPending_append (l : List TradeOffer) (o : TradeOffer)
    (hd : NoDupPending l) (ho : o.status = TradeOfferStatus.PENDING)
    (hnew : (l.filter (isPendingDup o.proposer_id o.recipient_id
      o.offered_game_id o.requested_game_id)).isEmpty = true) :
    NoDupPending (l ++ [o]) := by
  have hnil : l.filter (isPendingDup o.proposer_id o.recipient_id
      o.offered_game_id o.requested_game_id) = [] := by
    simpa [List.isEmpty_iff] using hnew
  have hnone : ∀ a ∈ l,
      ¬(isPendingDup o.proposer_id o.recipient_id o.offered_game_id
        o.requested_game_id a = true) :=
    List.filter_eq_nil_iff.mp hnil
  unfold NoDupPending
  rw [List.pairwise_append]
  refine ⟨hd, List.pairwise_singleton _ _, ?_⟩
  intro a ha b hb
  simp only [List.mem_singleton] at hb
  subst hb
  rintro ⟨hpa, hpb, ht⟩
  apply hnone a ha
  simp only [offerTuple, Prod.mk.injEq] at ht
  obtain ⟨t1, t2, t3, t4⟩ := ht
  simp [isPendingDup, t1, t2, t3, t4, hpa]

/-- Every single processed request preserves the
at-most-one-PENDING-per-tuple invariant. -/
lemma step_preserves_pendingUnique {db db' : DB} (h : Step db db')
    (hd : PendingUnique db) : PendingUnique db' := by
  cases h with
  | create c rgid rid m now =>
    rcases create_snd_offers db c rgid rid m now with heq | ⟨o, ho, hnew, hof⟩
    · unfold PendingUnique
      rw [heq]
      exact hd
    · unfold PendingUnique
      rw [hof]
      exact noDupPending_append _ _ hd ho hnew
  | respond c oid s now =>
    rcases respond_snd_offers db c oid s now with heq | ⟨o', ho', hof⟩
    · unfold PendingUnique
      rw [heq]
      exact hd
    · unfold PendingUnique
      rw [hof]
      refine noDupPending_map_pres ?_ hd
      intro x
      by_cases hx : (x.id == oid) = true
      · right
        simp only [hx, if_true]
        exact ho'
      · left
        simp [hx]
  | cancel c oid now =>
    rcases cancel_snd_offers db c oid now with heq | ⟨o', ho', hof⟩
    · unfold PendingUnique
      rw [heq]
      exact hd
    · unfold PendingUnique
      rw [hof]
      refine noDupPending_map_pres ?_ hd
      intro x
      by_cases hx : (x.id == oid) = true
      · right
        simp only [hx, if_true]
        exact ho'
      · left
        simp [hx]
  | collab db' h =>
    unfold PendingUnique
    rw [h]
    exact hd

/-- The duplicate check of `create_trade_offer` is empty exactly when no
PENDING offer with the candidate tuple sits in the table. -/
lemma filter_pendingDup_isEmpty_iff (l : List TradeOffer) (p r og rg : Nat) :
    (l.filter (isPendingDup p r og rg)).isEmpty = true ↔
      ∀ o ∈ l, ¬(o.status = TradeOfferStatus.PENDING ∧
        offerTuple o = (p, r, og, rg)) := by
  rw [List.isEmpty_iff, List.filter_eq_nil_iff]
  constructor
  · rintro h o ho ⟨hst, ht⟩
    apply h o ho
    simp only [offerTuple, Prod.mk.injEq] at ht
    obtain ⟨t1, t2, t3, t4⟩ := ht
    simp [isPendingDup, t1, t2, t3, t4, hst]
  · intro h o ho hdup
    simp only [isPendingDup, Bool.and_eq_true, beq_iff_eq] at hdup
    obtain ⟨⟨⟨⟨h1, h2⟩, h3⟩, h4⟩, h5⟩ := hdup
    exact h o ho ⟨h5, by simp [offerTuple, h1, h2, h3, h4]⟩

/-- C3: in every reachable store at most one offer is PENDING per
`(proposer, recipient, offered_game, requested_game)` tuple; a create
whose earlier checks pass fails as a duplicate exactly while a PENDING
offer with the identical tuple exists, and succeeds (with an identical
fresh PENDING offer) once no such PENDING offer remains. -/
theorem pending_offer_tuple_uniqueness :
    (∀ db, Reachable db → PendingUnique db) ∧
    (∀ (db : DB) (c rgid rid : Nat) (m : Option String) (now : Nat)
       (g : Game) (u : User) (g0 : Game) (gs : List Game),
      findGame db rgid = some g → findUser db rid = some u →
      g.owner_id = rid → c ≠ rid → ownedGames db c = g0 :: gs →
      (∃ o ∈ db.offers, o.status = TradeOfferStatus.PENDING ∧
        offerTuple o = (c, rid, g0.id, rgid)) →
      create_trade_offer db c rgid rid m now =
        (.error ⟨400, "A pending trade offer for these games already exists"⟩, db)) ∧
    (∀ (db : DB) (c rgid rid : Nat) (m : Option String) (now : Nat)
       (g : Game) (u : User) (g0 : Game) (gs : List Game),
      findGame db rgid = some g → findUser db rid = some u →
      g.owner_id = rid → c ≠ rid → ownedGames db c = g0 :: gs →
      (¬∃ o ∈ db.offers, o.status = TradeOfferStatus.PENDING ∧
        offerTuple o = (c, rid, g0.id, rgid)) →
      ∃ o, create_trade_offer db c rgid rid m now =
          (.ok (o, build_trade_offer_links o.id),
            { db with offers := db.offers ++ [o] }) ∧
        o.status = TradeOfferStatus.PENDING ∧
        offerTuple o = (c, rid, g0.id, rgid)) := by
  refine ⟨?_, ?_, ?_⟩
  · intro db h
    induction h with
    | init users games => exact List.Pairwise.nil
    | step _ hs ih => exact step_preserves_pendingUnique hs ih
  · intro db c rgid rid m now g u g0 gs hg hu howner hc hog hdup
    have hfalse : (db.offers.filter (isPendingDup c rid g0.id rgid)).isEmpty = false := by
      rcases hb : (db.offers.filter (isPendingDup c rid g0.id rgid)).isEmpty with _ | _
      · rfl
      · exfalso
        obtain ⟨o, ho, hst, ht⟩ := hdup
        exact (filter_pendingDup_isEmpty_iff db.offers c rid g0.id rgid).mp hb
          o ho ⟨hst, ht⟩
    exact (create_trade_offer_cases db c rgid rid m now).2.2.2.2.2.1
      g u g0 gs hg hu howner hc hog hfalse
  · intro db c rgid rid m now g u g0 gs hg hu howner hc hog hnodup
    have htrue : (db.offers.filter (isPendingDup c rid g0.id rgid)).isEmpty = true := by
      rw [filter_pendingDup_isEmpty_iff]
      intro o ho hpair
      exact hnodup ⟨o, ho, hpair⟩
    obtain ⟨o, h1, h2, h3, h4, h5, h6, -, -, -⟩ :=
      (create_trade_offer_cases db c rgid rid m now).2.2.2.2.2.2
        g u g0 gs hg hu howner hc hog htrue
    exact ⟨o, h1, h6, by simp [offerTuple, h2, h3, h4, h5]⟩

/-- Witness for C3: the empty-offer seeded store satisfies the invariant;
with the PENDING offer present an identical create by user 1 is rejected
as duplicate; with the same offer ACCEPTED the identical create
succeeds. -/
theorem pending_offer_tuple_uniqueness_witness :
    PendingUnique dbSeed ∧
    create_trade_offer dbP 1 2 2 none 20 =
      (.error ⟨400, "A pending trade offer for these games already exists"⟩, dbP) ∧
    ∃ o, create_trade_offer dbAcc 1 2 2 none 20 =
        (.ok (o, build_trade_offer_links o.id),
          { dbAcc with offers := dbAcc.offers ++ [o] }) ∧
      o.status = TradeOfferStatus.PENDING ∧ offerTuple o = (1, 2, 1, 2) :=
  ⟨pending_offer_tuple_uniqueness.1 dbSeed
    (Reachable.init [userA, userB] [gameA, gameB]),
   pending_offer_tuple_uniqueness.2.1 dbP 1 2 2 none 20 gameB userB gameA []
    rfl rfl rfl (by decide) rfl ⟨offerP, by simp [dbP, dbSeed], rfl, rfl⟩,
   pending_offer_tuple_uniqueness.2.2 dbAcc 1 2 2 none 20 gameB userB gameA []
    rfl rfl rfl (by decide) rfl (by decide)⟩

/-- Insertion keeps exactly the old elements plus the inserted one. -/
lemma mem_insertDesc {a o : TradeOffer} {l : List TradeOffer} :
    a ∈ insertDesc o l ↔ a = o ∨ a ∈ l := by
  induction l with
  | nil => simp [insertDesc]
  | cons x xs ih =>
    simp only [insertDesc]
    split
    · simp only [List.mem_cons, ih]
      tauto
    · simp [List.mem_cons]

/-- Sorting keeps exactly the selected rows. -/
lemma mem_sortByCreatedDesc {a : TradeOffer} {l : List TradeOffer} :
    a ∈ sortByCreatedDesc l ↔ a ∈ l := by
  induction l with
  | nil => simp [sortByCreatedDesc]
  | cons x xs ih => simp [sortByCreatedDesc, mem_insertDesc, ih]

/-- Inserting into a descending-`created_at` list keeps it descending. -/
lemma pairwise_insertDesc {o : TradeOffer} {l : List TradeOffer}
    (h : l.Pairwise (fun a b => b.created_at ≤ a.created_at)) :
    (insertDesc o l).Pairwise (fun a b => b.created_at ≤ a.created_at) := by
  induction l with
  | nil => simp [insertDesc]
  | cons x xs ih =>
    rw [List.pairwise_cons] at h
    obtain ⟨hx, hxs⟩ := h
    simp only [insertDesc]
    split
    · rename_i hle
      rw [List.pairwise_cons]
      refine ⟨?_, ih hxs⟩
      intro b hb
      rcases mem_insertDesc.mp hb with rfl | hb
      · exact hle
      · exact hx b hb
    · rename_i hgt
      push_neg at hgt
      rw [List.pairwise_cons]
      refine ⟨?_, ?_⟩
      · intro b hb
        rcases List.mem_cons.mp hb with rfl | hb
        · exact le_of_lt hgt
        · exact le_trans (hx b hb) (le_of_lt hgt)
      · rw [List.pairwise_cons]
        exact ⟨hx, hxs⟩

/-- The rows come back newest-created-first. -/
lemma pairwise_sortByCreatedDesc (l : List TradeOffer) :
    (sortByCreatedDesc l).Pairwise (fun a b => b.created_at ≤ a.created_at) := by
  induction l with
  | nil => exact List.Pairwise.nil
  | cons x xs ih => exact pairwise_insertDesc ih

/-- Membership through the truthiness-guarded status filter. -/
lemma mem_applyStatusFilter {v : Option TradeOfferStatus}
    {l : List TradeOffer} {o : TradeOffer} :
    o ∈ applyStatusFilter v l ↔ o ∈ l ∧ ∀ s, v = some s → o.status = s := by
  cases v with
  | none => simp [applyStatusFilter]
  | some s => simp [applyStatusFilter, List.mem_filter]

/-- Membership through a truthiness-guarded integer filter: the value `0`
is falsy in Python, so a zero-valued filter is skipped. -/
lemma mem_applyIntFilter {v : Option Nat} {col : TradeOffer → Nat}
    {l : List TradeOffer} {o : TradeOffer} :
    o ∈ applyIntFilter v col l ↔ o ∈ l ∧ ∀ r, v = some r → r ≠ 0 → col o = r := by
  cases v with
  | none => simp [applyIntFilter]
  | some r =>
    by_cases hr : r = 0
    · subst hr
      simp [applyIntFilter]
    · have hb : (r != 0) = true := bne_iff_ne.mpr hr
      simp [applyIntFilter, hb, List.mem_filter, hr]

/-- Counterexample for C7: a present-but-zero `recipient_id` filter is
silently ignored (`if recipient_id_filter:` is false for `0` in Python):
caller 1's offer with recipient 2 is returned even though a faithful
"applied when present" filter would return the empty list. -/
theorem zero_valued_filter_is_ignored :
    get_trade_offers dbP 1 none (some 0) none =
      [(offerP, build_trade_offer_links 1)] ∧ offerP.recipient_id ≠ 0 :=
  ⟨rfl, by decide⟩

/-- C7 (amended): the list endpoint returns exactly the offers in which
the caller is proposer or recipient, newest-created-first, each carrying
its links; the status filter narrows whenever present, while the
recipient and proposer id filters narrow only when present AND non-zero
(Python truthiness treats a `0` query value as absent). -/
theorem get_trade_offers_spec (db : DB) (c : Nat)
    (sf : Option TradeOfferStatus) (rf pf : Option Nat) :
    (∀ o : TradeOffer, (∃ l, (o, l) ∈ get_trade_offers db c sf rf pf) ↔
      (o ∈ db.offers ∧ (o.proposer_id = c ∨ o.recipient_id = c) ∧
       (∀ s, sf = some s → o.status = s) ∧
       (∀ r, rf = some r → r ≠ 0 → o.recipient_id = r) ∧
       (∀ p, pf = some p → p ≠ 0 → o.proposer_id = p))) ∧
    ((get_trade_offers db c sf rf pf).map Prod.fst).Pairwise
      (fun a b => b.created_at ≤ a.created_at) ∧
    (∀ p ∈ get_trade_offers db c sf rf pf, p.2 = build_trade_offer_links p.1.id) := by
  refine ⟨?_, ?_, ?_⟩
  · intro o
    simp only [get_trade_offers, List.mem_map, mem_sortByCreatedDesc,
      mem_applyIntFilter, mem_applyStatusFilter, List.mem_filter,
      Bool.or_eq_true, beq_iff_eq, Prod.mk.injEq]
    constructor
    · rintro ⟨l, x, ⟨⟨⟨⟨hmem, hparty⟩, hsf⟩, hrf⟩, hpf⟩, rfl, rfl⟩
      exact ⟨hmem, hparty, hsf, hrf, hpf⟩
    · rintro ⟨hmem, hparty, hsf, hrf, hpf⟩
      exact ⟨build_trade_offer_links o.id, o, ⟨⟨⟨⟨hmem, hparty⟩, hsf⟩, hrf⟩, hpf⟩, rfl, rfl⟩
  · have hmap : (get_trade_offers db c sf rf pf).map Prod.fst =
        sortByCreatedDesc (applyIntFilter pf TradeOffer.proposer_id
          (applyIntFilter rf TradeOffer.recipient_id
            (applyStatusFilter sf (db.offers.filter
              (fun o => o.proposer_id == c || o.recipient_id == c))))) := by
      simp only [get_trade_offers]
      rw [List.map_map]
      have hid : (Prod.fst ∘ fun o : TradeOffer =>
          (o, build_trade_offer_links o.id)) = id := rfl
      rw [hid, List.map_id]
    rw [hmap]
    exact pairwise_sortByCreatedDesc _
  · intro p hp
    simp only [get_trade_offers, List.mem_map] at hp
    obtain ⟨x, -, rfl⟩ := hp
    rfl

/-- Witness for the amended C7: with a non-zero recipient filter the
seeded PENDING offer is still listed for caller 1. -/
theorem get_trade_offers_spec_witness :
    ∃ l, (offerP, l) ∈ get_trade_offers dbP 1 none (some 2) none := by
  apply ((get_trade_offers_spec dbP 1 none (some 2) none).1 offerP).mpr
  refine ⟨by simp [dbP, dbSeed], Or.inl rfl, ?_, ?_, ?_⟩
  · intro s h
    cases h
  · intro r h hz
    cases h
    rfl
  · intro p h hz
    cases h

/-- Witness for C10: a concrete delete of user 1 in the seeded store
comes back with a 200-family, 400 or 404 outcome — never 401/403. -/
theorem users_games_routes_never_authenticate_witness :
    codeOf (delete_user dbSeed 1).1 = 200 ∨
    codeOf (delete_user dbSeed 1).1 = 400 ∨
    codeOf (delete_user dbSeed 1).1 = 404 :=
  users_games_routes_never_authenticate.2.2.2.2.2.1 dbSeed 1

end VGX
